import Mathlib

/-!
Verification of the Dialogv2 glucose-prediction core against its design
specification.  The Python sources under `api/` are shallowly embedded:

* `api/services/feature_builder.py` — `EXPECTED_COLS`, `_safe_std`,
  `_slope_last_k`, `_tod_sin_cos`, `build_features`;
* `api/services/model_service.py` — `load_model` (a process-wide lazy
  singleton, modelled as an explicit state transition);
* `api/services/meal_response_service.py` — `load_meal_model` and the
  response assembly of `predict_meal_response`;
* `api/main.py` — the input gate of the `/predict` handler,
  `confidence_label`, and the keyword lists of the `build_features` call.

Python `float` values are idealised as exact rationals (`ℚ`) for the
arithmetic the code performs with field operations, and as reals (`ℝ`)
where the code calls `sqrt`, `sin`, `cos`, `exp` or a real power.  A
Python `dict` with string keys is an insertion-ordered association list;
assignment replaces the value of the first matching key and appends when
the key is absent, exactly as in CPython.  The sequence of dict
assignments in the body of `build_features` is represented as a fold of
single assignments over the write list `featureWrites`, kept in the
source's statement order.
-/

namespace Dialog

/-- A Python feature value: every schema column holds a float except the
categorical `"Meal Type"`, which holds a string. -/
inductive FVal where
  | num (x : ℝ)
  | str (s : String)

/-- An insertion-ordered Python dict with string keys. -/
abbrev FDict := List (String × FVal)

/-- Python dict assignment `m[k] = v`: replace the value at the first
occurrence of `k`, append `(k, v)` when `k` is absent. -/
def dset : FDict → String → FVal → FDict
  | [], k, v => [(k, v)]
  | (k', v') :: rest, k, v =>
      if k' = k then (k', v) :: rest else (k', v') :: dset rest k v

/-- Python dict read `m[k]` (as an `Option`): the value at the first
occurrence of `k`. -/
def dget : FDict → String → Option FVal
  | [], _ => none
  | (k', v') :: rest, k => if k' = k then some v' else dget rest k

/-- The key list of a dict, in insertion order. -/
def dkeys (m : FDict) : List String := m.map Prod.fst

/-- A sequence of Python dict assignments, executed left to right. -/
def dsetFold (m : FDict) (ws : List (String × FVal)) : FDict :=
  ws.foldl (fun acc w => dset acc w.1 w.2) m

/-- `feature_builder.EXPECTED_COLS`: the 28 columns the model expects. -/
def EXPECTED_COLS : List String :=
  ["gl_lag_1", "gl_lag_2", "gl_lag_3", "gl_lag_5", "gl_lag_10", "gl_lag_15", "gl_lag_30",
   "gl_slope_5", "gl_slope_15",
   "gl_rm_5", "gl_rs_5", "gl_rm_15", "gl_rs_15", "gl_rm_30", "gl_rs_30",
   "tod_sin", "tod_cos",
   "HR", "METs",
   "Calories (Activity)", "Calories", "Carbs", "Protein", "Fat", "Fiber",
   "Amount Consumed", "Meal Type", "Steps"]

/-- The `used` column list returned in `"min"` mode. -/
def MIN_USED_COLS : List String :=
  ["gl_lag_1", "gl_rm_5", "gl_slope_5",
   "tod_sin", "tod_cos",
   "Calories", "Carbs", "Steps", "Meal Type"]

/-- The `used` column list returned in `"fallback"` mode. -/
def FALLBACK_USED_COLS : List String :=
  ["gl_lag_1", "gl_lag_2", "gl_lag_3", "gl_lag_5", "gl_lag_10", "gl_lag_15",
   "gl_slope_5", "gl_slope_15",
   "gl_rm_5", "gl_rs_5", "gl_rm_15", "gl_rs_15",
   "tod_sin", "tod_cos",
   "HR", "METs", "Steps", "Calories (Activity)",
   "Calories", "Carbs", "Protein", "Fat", "Fiber",
   "Amount Consumed", "Meal Type"]

/-- `feature_builder.FeatureBuildResult` (a dataclass with fields
`mode`, `features`, `features_used_cols`). -/
structure FeatureBuildResult where
  mode : String
  features : FDict
  features_used_cols : List String

/-- `{c: 0.0 for c in EXPECTED_COLS}`. -/
def defaultRow : FDict := EXPECTED_COLS.map (fun c => (c, FVal.num 0))

/-- `numpy` mean of a list of floats (sum divided by length; only ever
read on non-empty input in the source). -/
def qmean (l : List ℚ) : ℚ := l.sum / l.length

/-- `numpy` population variance (`ddof=0`): mean of squared deviations. -/
def qvarPop (l : List ℚ) : ℚ := qmean (l.map (fun x => (x - qmean l) ^ 2))

/-- `feature_builder._safe_std`: `x.std(ddof=0)` when non-empty, else 0. -/
noncomputable def safe_std (l : List ℚ) : ℝ :=
  if 0 < l.length then Real.sqrt ((qvarPop l : ℚ) : ℝ) else 0

/-- `arr[-k:] if n >= k else np.array([])` — the `tail` helper inside
`build_features`. -/
def tailK (arr : List ℚ) (k : ℕ) : List ℚ :=
  if k ≤ arr.length then arr.drop (arr.length - k) else []

/-- `lag(i)` inside `build_features`: `arr[-1-i]` when `n > i`, else 0. -/
def lagF (arr : List ℚ) (i : ℕ) : ℚ :=
  if i < arr.length then arr.getD (arr.length - 1 - i) 0 else 0

/-- `feature_builder._slope_last_k`: covariance-over-variance slope of the
last `k` samples against `0, 1, …, k-1`; 0 when fewer than `k` samples or
when the index variance vanishes. -/
def slope_last_k (arr : List ℚ) (k : ℕ) : ℚ :=
  if arr.length < k then 0
  else
    let y := arr.drop (arr.length - k)
    let x : List ℚ := (List.range k).map (Nat.cast : ℕ → ℚ)
    let vx := qvarPop x
    if vx = 0 then 0
    else qmean (List.zipWith (fun a b => (a - qmean x) * (b - qmean y)) x y) / vx

/-- A wall-clock time of day, the successfully parsed content of an ISO
timestamp string.  `datetime.fromisoformat` and the surrounding
`try/except` of `_tod_sin_cos` are modelled by handing the function an
`Option PyDateTime`: `none` stands for a missing or unparsable string. -/
structure PyDateTime where
  hour : ℕ
  minute : ℕ
  second : ℕ

/-- `feature_builder._tod_sin_cos`: `(sin, cos)` of
`2π · seconds_since_midnight / 86400`, `(0, 0)` when no timestamp parses. -/
noncomputable def tod_sin_cos : Option PyDateTime → ℝ × ℝ
  | none => (0, 0)
  | some dt =>
      let seconds : ℚ := dt.hour * 3600 + dt.minute * 60 + dt.second
      let angle : ℝ := 2 * Real.pi * ((seconds : ℝ) / 86400)
      (Real.sin angle, Real.cos angle)

/-- Python `x or "Unknown"` on an optional string: the default replaces
both `None` and the empty (falsy) string. -/
def pyOr (s : Option String) (d : String) : String :=
  match s with
  | some t => if t = "" then d else t
  | none => d

/-- `float(x) if x is not None else 0.0` for an optional covariate. -/
def optF (x : Option ℚ) : ℝ :=
  match x with
  | some v => (v : ℝ)
  | none => 0

/-- The dict assignments performed by `build_features` on a non-empty
series, as `(key, value)` pairs in the source's statement order: the
seven lags, rolling mean/std for windows 5/15/30, the two slopes, the
time-of-day pair, the activity covariates, the macro covariates, and the
categorical meal type. -/
noncomputable def featureWrites (gv : List ℚ) (ts : Option PyDateTime) (mt : Option String)
    (hr mets steps cala cal carbs prot fat fib amt : Option ℚ) : List (String × FVal) :=
  [("gl_lag_1", FVal.num ((lagF gv 1 : ℚ) : ℝ)),
   ("gl_lag_2", FVal.num ((lagF gv 2 : ℚ) : ℝ)),
   ("gl_lag_3", FVal.num ((lagF gv 3 : ℚ) : ℝ)),
   ("gl_lag_5", FVal.num ((lagF gv 5 : ℚ) : ℝ)),
   ("gl_lag_10", FVal.num ((lagF gv 10 : ℚ) : ℝ)),
   ("gl_lag_15", FVal.num ((lagF gv 15 : ℚ) : ℝ)),
   ("gl_lag_30", FVal.num ((lagF gv 30 : ℚ) : ℝ)),
   ("gl_rm_5", FVal.num (if (tailK gv 5).length ≠ 0 then ((qmean (tailK gv 5) : ℚ) : ℝ) else 0)),
   ("gl_rs_5", FVal.num (safe_std (tailK gv 5))),
   ("gl_rm_15", FVal.num (if (tailK gv 15).length ≠ 0 then ((qmean (tailK gv 15) : ℚ) : ℝ) else 0)),
   ("gl_rs_15", FVal.num (safe_std (tailK gv 15))),
   ("gl_rm_30", FVal.num (if (tailK gv 30).length ≠ 0 then ((qmean (tailK gv 30) : ℚ) : ℝ) else 0)),
   ("gl_rs_30", FVal.num (safe_std (tailK gv 30))),
   ("gl_slope_5", FVal.num (if 2 ≤ gv.length then ((slope_last_k gv 5 : ℚ) : ℝ) else 0)),
   ("gl_slope_15", FVal.num (if 2 ≤ gv.length then ((slope_last_k gv 15 : ℚ) : ℝ) else 0)),
   ("tod_sin", FVal.num (tod_sin_cos ts).1),
   ("tod_cos", FVal.num (tod_sin_cos ts).2),
   ("HR", FVal.num (optF hr)),
   ("METs", FVal.num (optF mets)),
   ("Steps", FVal.num (optF steps)),
   ("Calories (Activity)", FVal.num (optF cala)),
   ("Calories", FVal.num (optF cal)),
   ("Carbs", FVal.num (optF carbs)),
   ("Protein", FVal.num (optF prot)),
   ("Fat", FVal.num (optF fat)),
   ("Fiber", FVal.num (optF fib)),
   ("Amount Consumed", FVal.num (optF amt)),
   ("Meal Type", FVal.str (pyOr mt "Unknown"))]

/-- `feature_builder.build_features`: returns the mode decided from the
series length together with the 28-column feature dict and the `used`
column list.  Arguments follow the Python keyword order. -/
noncomputable def build_features (glucose_values : List ℚ) (latest_ts : Option PyDateTime)
    (meal_type : Option String)
    (hr mets steps calories_activity calories carbs protein fat fiber amount_consumed :
      Option ℚ) : FeatureBuildResult :=
  let n := glucose_values.length
  if n = 0 then
    ⟨"min", dset defaultRow "Meal Type" (FVal.str (pyOr meal_type "Unknown")), MIN_USED_COLS⟩
  else
    let mode := if 30 ≤ n then "full" else if 10 ≤ n then "fallback" else "min"
    let f := dsetFold defaultRow
      (featureWrites glucose_values latest_ts meal_type hr mets steps calories_activity
        calories carbs protein fat fiber amount_consumed)
    let used := if mode = "full" then EXPECTED_COLS
      else if mode = "fallback" then FALLBACK_USED_COLS else MIN_USED_COLS
    ⟨mode, f, used⟩

/-! ### Lemmas about the embedded dict operations -/

lemma dget_dset_same (m : FDict) (k : String) (v : FVal) : dget (dset m k v) k = some v := by
  induction m with
  | nil => simp [dset, dget]
  | cons p rest ih =>
      obtain ⟨k', v'⟩ := p
      by_cases h : k' = k
      · simp [dset, dget, h]
      · simp [dset, dget, h, ih]

lemma dget_dset_ne (m : FDict) (k k' : String) (v : FVal) (h : k' ≠ k) :
    dget (dset m k v) k' = dget m k' := by
  induction m with
  | nil => simp [dset, dget, Ne.symm h]
  | cons p rest ih =>
      obtain ⟨k'', v''⟩ := p
      by_cases h2 : k'' = k
      · subst h2
        simp [dset, dget, Ne.symm h]
      · simp [dset, dget, h2, ih]

lemma dkeys_dset_of_mem (m : FDict) (k : String) (v : FVal) (h : k ∈ dkeys m) :
    dkeys (dset m k v) = dkeys m := by
  induction m with
  | nil => simp [dkeys] at h
  | cons p rest ih =>
      obtain ⟨k', v'⟩ := p
      by_cases h2 : k' = k
      · simp [dset, dkeys, h2]
      · have hmem : k ∈ dkeys rest := by
          rcases (by simpa [dkeys] using h : k = k' ∨ k ∈ dkeys rest) with h3 | h3
          · exact absurd h3.symm h2
          · exact h3
        simp [dset, dkeys, h2]
        simpa [dkeys] using ih hmem

lemma dkeys_defaultRow : dkeys defaultRow = EXPECTED_COLS := by
  simp [dkeys, defaultRow, List.map_map, Function.comp_def]

/-- Writing a schema column never changes the key set of a dict whose
keys are already the schema. -/
lemma dkeys_dset_schema (m : FDict) (k : String) (v : FVal)
    (h : dkeys m = EXPECTED_COLS) (hk : k ∈ EXPECTED_COLS) :
    dkeys (dset m k v) = EXPECTED_COLS := by
  rw [dkeys_dset_of_mem m k v (by rw [h]; exact hk), h]

lemma dget_defaultRow (k : String) (hk : k ∈ EXPECTED_COLS) :
    dget defaultRow k = some (FVal.num 0) := by
  fin_cases hk <;> rfl

/-- Reading after a sequence of writes: the last write of the key wins;
a key never written reads from the underlying dict. -/
lemma dget_dsetFold (ws : List (String × FVal)) (m : FDict) (k : String) :
    dget (dsetFold m ws) k =
      match ws.reverse.find? (fun w => w.1 == k) with
      | some w => some w.2
      | none => dget m k := by
  induction ws generalizing m with
  | nil => simp [dsetFold]
  | cons w rest ih =>
      have hstep : dsetFold m (w :: rest) = dsetFold (dset m w.1 w.2) rest := rfl
      rw [hstep, ih, List.reverse_cons, List.find?_append]
      rcases hfind : rest.reverse.find? (fun w => w.1 == k) with _ | w'
      · by_cases hk : w.1 = k
        · subst hk
          simp [hfind, List.find?, dget_dset_same, Option.or]
        · have hb : (w.1 == k) = false := beq_eq_false_iff_ne.mpr hk
          simp [hfind, List.find?, hb, dget_dset_ne _ _ _ _ (Ne.symm hk), Option.or]
      · simp [hfind, Option.or]

/-- A sequence of schema-column writes never changes a schema key set. -/
lemma dkeys_dsetFold_schema (ws : List (String × FVal)) :
    ∀ m : FDict, (∀ w ∈ ws, w.1 ∈ EXPECTED_COLS) → dkeys m = EXPECTED_COLS →
      dkeys (dsetFold m ws) = EXPECTED_COLS := by
  induction ws with
  | nil =>
      intro m _ hm
      exact hm
  | cons w rest ih =>
      intro m hws hm
      exact ih (dset m w.1 w.2) (fun w' hw' => hws w' (List.mem_cons_of_mem _ hw'))
        (dkeys_dset_schema m w.1 w.2 hm (hws w (List.mem_cons_self _ _)))

/-- Every key written by `build_features` is a schema column. -/
lemma featureWrites_keys_schema (gv : List ℚ) (ts : Option PyDateTime) (mt : Option String)
    (hr mets steps cala cal carbs prot fat fib amt : Option ℚ) :
    ∀ w ∈ featureWrites gv ts mt hr mets steps cala cal carbs prot fat fib amt,
      w.1 ∈ EXPECTED_COLS := by
  simp [featureWrites, EXPECTED_COLS]

/-- Every value written by `build_features` at a key other than
`"Meal Type"` is numeric. -/
lemma featureWrites_num (gv : List ℚ) (ts : Option PyDateTime) (mt : Option String)
    (hr mets steps cala cal carbs prot fat fib amt : Option ℚ) :
    ∀ w ∈ featureWrites gv ts mt hr mets steps cala cal carbs prot fat fib amt,
      w.1 ≠ "Meal Type" → ∃ x : ℝ, w.2 = FVal.num x := by
  simp only [featureWrites, List.mem_cons, List.not_mem_nil, or_false]
  rintro w (rfl | rfl | rfl | rfl | rfl | rfl | rfl | rfl | rfl | rfl | rfl | rfl | rfl | rfl |
    rfl | rfl | rfl | rfl | rfl | rfl | rfl | rfl | rfl | rfl | rfl | rfl | rfl | rfl) h <;>
    first
      | exact ⟨_, rfl⟩
      | exact absurd rfl h

/-- The feature dict computed on a non-empty series. -/
lemma build_features_features (gv : List ℚ) (ts : Option PyDateTime) (mt : Option String)
    (hr mets steps cala cal carbs prot fat fib amt : Option ℚ) (hn : gv.length ≠ 0) :
    (build_features gv ts mt hr mets steps cala cal carbs prot fat fib amt).features
      = dsetFold defaultRow (featureWrites gv ts mt hr mets steps cala cal carbs prot fat
          fib amt) := by
  unfold build_features
  rw [if_neg hn]

/-- The feature dict computed on the empty series. -/
lemma build_features_features_empty (ts : Option PyDateTime) (mt : Option String)
    (hr mets steps cala cal carbs prot fat fib amt : Option ℚ) :
    (build_features [] ts mt hr mets steps cala cal carbs prot fat fib amt).features
      = dset defaultRow "Meal Type" (FVal.str (pyOr mt "Unknown")) := rfl

/-- Cast form of the lag helper, matching the spec wording. -/
lemma cast_lagF (gv : List ℚ) (L : ℕ) :
    ((lagF gv L : ℚ) : ℝ)
      = if L < gv.length then ((gv.getD (gv.length - 1 - L) 0 : ℚ) : ℝ) else 0 := by
  unfold lagF
  split_ifs <;> simp

end Dialog

namespace Dialog

/-- The mode computed on a non-empty series. -/
lemma build_features_mode (gv : List ℚ) (ts : Option PyDateTime) (mt : Option String)
    (hr mets steps cala cal carbs prot fat fib amt : Option ℚ) (hn : gv.length ≠ 0) :
    (build_features gv ts mt hr mets steps cala cal carbs prot fat fib amt).mode
      = if 30 ≤ gv.length then "full" else if 10 ≤ gv.length then "fallback" else "min" := by
  unfold build_features
  rw [if_neg hn]

/-! ### C2: the mode policy -/

/-- C2: the mode returned by `build_features` is decided exactly by the
series length: `n ≥ 30 → "full"`, `10 ≤ n < 30 → "fallback"`,
`n < 10 → "min"`. -/
theorem build_features_mode_boundaries (gv : List ℚ) (ts : Option PyDateTime)
    (mt : Option String) (hr mets steps cala cal carbs prot fat fib amt : Option ℚ) :
    (30 ≤ gv.length →
      (build_features gv ts mt hr mets steps cala cal carbs prot fat fib amt).mode = "full")
  ∧ (10 ≤ gv.length ∧ gv.length < 30 →
      (build_features gv ts mt hr mets steps cala cal carbs prot fat fib amt).mode = "fallback")
  ∧ (gv.length < 10 →
      (build_features gv ts mt hr mets steps cala cal carbs prot fat fib amt).mode = "min") := by
  by_cases hn : gv.length = 0
  · rw [List.length_eq_zero] at hn
    subst hn
    exact ⟨fun h => absurd h (by simp), fun h => absurd h.1 (by simp), fun _ => rfl⟩
  · rw [build_features_mode gv ts mt hr mets steps cala cal carbs prot fat fib amt hn]
    refine ⟨fun h => ?_, fun h => ?_, fun h => ?_⟩
    · rw [if_pos h]
    · rw [if_neg (by omega), if_pos h.1]
    · rw [if_neg (by omega), if_neg (by omega)]

/-- C2 witness: the boundary lengths 29 and 30. -/
theorem build_features_mode_boundaries_witness :
    (build_features (List.replicate 29 (100 : ℚ)) none none
        none none none none none none none none none none).mode = "fallback"
  ∧ (build_features (List.replicate 30 (100 : ℚ)) none none
        none none none none none none none none none none).mode = "full" :=
  ⟨(build_features_mode_boundaries (List.replicate 29 (100 : ℚ)) none none
      none none none none none none none none none none).2.1 (by simp),
   (build_features_mode_boundaries (List.replicate 30 (100 : ℚ)) none none
      none none none none none none none none none none).1 (by simp)⟩

/-! ### C3: lag features -/

/-- C3: for every configured lag offset `L ∈ {1,2,3,5,10,15,30}` the
emitted `gl_lag_L` equals the sample `L` positions before the most recent
one when `n > L`, and `0.0` when `n ≤ L`. -/
theorem build_features_lag_semantics (gv : List ℚ) (ts : Option PyDateTime)
    (mt : Option String) (hr mets steps cala cal carbs prot fat fib amt : Option ℚ) :
    (dget (build_features gv ts mt hr mets steps cala cal carbs prot fat fib amt).features
        "gl_lag_1"
      = some (FVal.num (if 1 < gv.length then ((gv.getD (gv.length - 1 - 1) 0 : ℚ) : ℝ) else 0)))
  ∧ (dget (build_features gv ts mt hr mets steps cala cal carbs prot fat fib amt).features
        "gl_lag_2"
      = some (FVal.num (if 2 < gv.length then ((gv.getD (gv.length - 1 - 2) 0 : ℚ) : ℝ) else 0)))
  ∧ (dget (build_features gv ts mt hr mets steps cala cal carbs prot fat fib amt).features
        "gl_lag_3"
      = some (FVal.num (if 3 < gv.length then ((gv.getD (gv.length - 1 - 3) 0 : ℚ) : ℝ) else 0)))
  ∧ (dget (build_features gv ts mt hr mets steps cala cal carbs prot fat fib amt).features
        "gl_lag_5"
      = some (FVal.num (if 5 < gv.length then ((gv.getD (gv.length - 1 - 5) 0 : ℚ) : ℝ) else 0)))
  ∧ (dget (build_features gv ts mt hr mets steps cala cal carbs prot fat fib amt).features
        "gl_lag_10"
      = some (FVal.num (if 10 < gv.length then ((gv.getD (gv.length - 1 - 10) 0 : ℚ) : ℝ) else 0)))
  ∧ (dget (build_features gv ts mt hr mets steps cala cal carbs prot fat fib amt).features
        "gl_lag_15"
      = some (FVal.num (if 15 < gv.length then ((gv.getD (gv.length - 1 - 15) 0 : ℚ) : ℝ) else 0)))
  ∧ (dget (build_features gv ts mt hr mets steps cala cal carbs prot fat fib amt).features
        "gl_lag_30"
      = some (FVal.num (if 30 < gv.length then ((gv.getD (gv.length - 1 - 30) 0 : ℚ) : ℝ) else 0))) := by
  by_cases hgv : gv = []
  · subst hgv
    refine ⟨?_, ?_, ?_, ?_, ?_, ?_, ?_⟩ <;>
      · rw [build_features_features_empty, dget_dset_ne _ _ _ _ (by decide),
          dget_defaultRow _ (by decide)]
        simp
  · have hn : gv.length ≠ 0 := fun h => hgv (List.length_eq_zero.mp h)
    refine ⟨?_, ?_, ?_, ?_, ?_, ?_, ?_⟩ <;>
      · rw [build_features_features gv ts mt hr mets steps cala cal carbs prot fat fib amt hn,
          dget_dsetFold]
        simp [featureWrites, cast_lagF]

/-! ### C1: schema completeness -/

/-- C1: for every input series and any combination of optional
covariates, the emitted feature mapping's key set is exactly the
28-column `EXPECTED_COLS` schema; every column other than `"Meal Type"`
holds a float, absent numeric covariates default to `0.0`, and the single
categorical `"Meal Type"` defaults to the literal `"Unknown"` when no
meal type is given. -/
theorem build_features_schema_complete (gv : List ℚ) (ts : Option PyDateTime)
    (mt : Option String) (hr mets steps cala cal carbs prot fat fib amt : Option ℚ) :
    dkeys (build_features gv ts mt hr mets steps cala cal carbs prot fat fib amt).features
      = EXPECTED_COLS
  ∧ EXPECTED_COLS.length = 28
  ∧ (∀ k ∈ EXPECTED_COLS, k ≠ "Meal Type" →
      ∃ x : ℝ, dget (build_features gv ts mt hr mets steps cala cal carbs prot fat fib
        amt).features k = some (FVal.num x))
  ∧ (∃ s : String, dget (build_features gv ts mt hr mets steps cala cal carbs prot fat fib
      amt).features "Meal Type" = some (FVal.str s))
  ∧ (mt = none → dget (build_features gv ts mt hr mets steps cala cal carbs prot fat fib
      amt).features "Meal Type" = some (FVal.str "Unknown"))
  ∧ (hr = none → dget (build_features gv ts mt hr mets steps cala cal carbs prot fat fib
      amt).features "HR" = some (FVal.num 0))
  ∧ (mets = none → dget (build_features gv ts mt hr mets steps cala cal carbs prot fat fib
      amt).features "METs" = some (FVal.num 0))
  ∧ (steps = none → dget (build_features gv ts mt hr mets steps cala cal carbs prot fat fib
      amt).features "Steps" = some (FVal.num 0))
  ∧ (cala = none → dget (build_features gv ts mt hr mets steps cala cal carbs prot fat fib
      amt).features "Calories (Activity)" = some (FVal.num 0))
  ∧ (cal = none → dget (build_features gv ts mt hr mets steps cala cal carbs prot fat fib
      amt).features "Calories" = some (FVal.num 0))
  ∧ (carbs = none → dget (build_features gv ts mt hr mets steps cala cal carbs prot fat fib
      amt).features "Carbs" = some (FVal.num 0))
  ∧ (prot = none → dget (build_features gv ts mt hr mets steps cala cal carbs prot fat fib
      amt).features "Protein" = some (FVal.num 0))
  ∧ (fat = none → dget (build_features gv ts mt hr mets steps cala cal carbs prot fat fib
      amt).features "Fat" = some (FVal.num 0))
  ∧ (fib = none → dget (build_features gv ts mt hr mets steps cala cal carbs prot fat fib
      amt).features "Fiber" = some (FVal.num 0))
  ∧ (amt = none → dget (build_features gv ts mt hr mets steps cala cal carbs prot fat fib
      amt).features "Amount Consumed" = some (FVal.num 0)) := by
  by_cases hgv : gv = []
  · subst hgv
    rw [build_features_features_empty]
    refine ⟨?_, by decide, ?_, ?_, ?_, ?_, ?_, ?_, ?_, ?_, ?_, ?_, ?_, ?_, ?_⟩
    · exact dkeys_dset_schema _ _ _ dkeys_defaultRow (by decide)
    · intro k hk hne
      exact ⟨0, by rw [dget_dset_ne _ _ _ _ hne, dget_defaultRow k hk]⟩
    · exact ⟨pyOr mt "Unknown", dget_dset_same _ _ _⟩
    · intro h
      subst h
      exact dget_dset_same _ _ _
    all_goals
      intro h
      rw [dget_dset_ne _ _ _ _ (by decide), dget_defaultRow _ (by decide)]
  · have hn : gv.length ≠ 0 := fun h => hgv (List.length_eq_zero.mp h)
    rw [build_features_features gv ts mt hr mets steps cala cal carbs prot fat fib amt hn]
    refine ⟨?_, by decide, ?_, ?_, ?_, ?_, ?_, ?_, ?_, ?_, ?_, ?_, ?_, ?_, ?_⟩
    · exact dkeys_dsetFold_schema _ defaultRow
        (featureWrites_keys_schema gv ts mt hr mets steps cala cal carbs prot fat fib amt)
        dkeys_defaultRow
    · intro k hk hne
      rw [dget_dsetFold]
      rcases hfind : (featureWrites gv ts mt hr mets steps cala cal carbs prot fat fib
          amt).reverse.find? (fun w => w.1 == k) with _ | w
      · simp only [hfind]
        exact ⟨0, dget_defaultRow k hk⟩
      · simp only [hfind]
        have hw : w ∈ featureWrites gv ts mt hr mets steps cala cal carbs prot fat fib amt :=
          List.mem_reverse.mp (List.mem_of_find?_eq_some hfind)
        have hkey : w.1 = k := by simpa using List.find?_some hfind
        obtain ⟨x, hx⟩ := featureWrites_num gv ts mt hr mets steps cala cal carbs prot fat fib
          amt w hw (by rw [hkey]; exact hne)
        exact ⟨x, by rw [hx]⟩
    · refine ⟨pyOr mt "Unknown", ?_⟩
      rw [dget_dsetFold]
      simp [featureWrites]
    · intro h
      subst h
      rw [dget_dsetFold]
      simp [featureWrites, pyOr]
    all_goals
      intro h
      subst h
      rw [dget_dsetFold]
      simp [featureWrites, optF]

/-- C1 witness: a one-sample series with every optional covariate absent. -/
theorem build_features_schema_complete_witness :
    dkeys (build_features [(100 : ℚ)] none none
        none none none none none none none none none none).features = EXPECTED_COLS
  ∧ dget (build_features [(100 : ℚ)] none none
        none none none none none none none none none none).features "Meal Type"
      = some (FVal.str "Unknown")
  ∧ dget (build_features [(100 : ℚ)] none none
        none none none none none none none none none none).features "HR"
      = some (FVal.num 0) :=
  have h := build_features_schema_complete [(100 : ℚ)] none none
    none none none none none none none none none none
  ⟨h.1, h.2.2.2.2.1 rfl, h.2.2.2.2.2.1 rfl⟩

end Dialog

namespace Dialog

/-! ### C4: slope features -/

/-- Modelled from the spec: "ordinary least-squares slope of value
against integer index over the trailing window; `0.0` if fewer than 2
points available" — the claim-side definition of the OLS slope of a
window `y`, written with the standard least-squares sums. -/
def specOlsSlope (y : List ℚ) : ℚ :=
  if y.length < 2 then 0
  else
    let x : List ℚ := (List.range y.length).map (Nat.cast : ℕ → ℚ)
    (List.zipWith (fun a b => (a - qmean x) * (b - qmean y)) x y).sum
      / (x.map (fun a => (a - qmean x) ^ 2)).sum

lemma div_div_of_div (a b n : ℚ) (hn : n ≠ 0) : a / n / (b / n) = a / b := by
  rcases eq_or_ne b 0 with rfl | hb
  · simp
  · field_simp

lemma qmean_div_qvarPop (z x : List ℚ) (k : ℕ) (hz : z.length = k) (hx : x.length = k)
    (hk : k ≠ 0) :
    qmean z / qvarPop x = z.sum / (x.map (fun a => (a - qmean x) ^ 2)).sum := by
  simp only [qvarPop, qmean, List.length_map, hz, hx]
  exact div_div_of_div _ _ _ (Nat.cast_ne_zero.mpr hk)

/-- On a full window the covariance-over-variance form computed by the
code agrees with the least-squares-sums form of the spec. -/
lemma slope_code_eq_spec (arr : List ℚ) (k : ℕ) (h2 : 2 ≤ k) (hk : k ≤ arr.length)
    (hvx : qvarPop ((List.range k).map (Nat.cast : ℕ → ℚ)) ≠ 0) :
    slope_last_k arr k = specOlsSlope (tailK arr k) := by
  have hy : tailK arr k = arr.drop (arr.length - k) := by rw [tailK, if_pos hk]
  have hylen : (arr.drop (arr.length - k)).length = k := by
    rw [List.length_drop]
    omega
  have hxlen : ((List.range k).map (Nat.cast : ℕ → ℚ)).length = k := by
    rw [List.length_map, List.length_range]
  simp only [slope_last_k, specOlsSlope, hy, hylen]
  rw [if_neg (by omega : ¬ arr.length < k), if_neg (by omega : ¬ k < 2), if_neg hvx]
  exact qmean_div_qvarPop _ _ k
    (by rw [List.length_zipWith, hxlen, hylen, min_self]) hxlen (by omega)

lemma range5Q : (List.range 5).map (Nat.cast : ℕ → ℚ) = [0, 1, 2, 3, 4] := by
  norm_num [List.range_succ]

lemma range15Q : (List.range 15).map (Nat.cast : ℕ → ℚ)
    = [0, 1, 2, 3, 4, 5, 6, 7, 8, 9, 10, 11, 12, 13, 14] := by
  norm_num [List.range_succ]

lemma vx5 : qvarPop ((List.range 5).map (Nat.cast : ℕ → ℚ)) = 2 := by
  rw [range5Q]
  norm_num [qvarPop, qmean]

lemma vx15 : qvarPop ((List.range 15).map (Nat.cast : ℕ → ℚ)) = 56 / 3 := by
  rw [range15Q]
  norm_num [qvarPop, qmean]

/-- C4 counterexample: on the two-point series `[0, 5]` the code emits
`gl_slope_5 = 0.0` although two points are available and their
least-squares slope against the integer index is 5 — the claim's
"OLS slope over the trailing window, 0.0 only below 2 points" is false
for a partially filled window. -/
theorem slope_partial_window_cex :
    dget (build_features [0, 5] none none none none none none none none none none none
        none).features "gl_slope_5" = some (FVal.num 0)
  ∧ specOlsSlope [0, 5] = 5 := by
  constructor
  · rw [build_features_features [0, 5] none none none none none none none none none none
      none none (by simp), dget_dsetFold]
    simp [featureWrites]
    norm_num [slope_last_k]
  · norm_num [specOlsSlope, qmean, List.range_succ]

/-- C4 amended: for `k ∈ {5, 15}` the emitted slope feature equals the
ordinary least-squares slope over the trailing window of the last `k`
samples when `n ≥ k`, and is `0.0` whenever `n < k` (not merely below 2
points). -/
theorem build_features_slope_semantics (gv : List ℚ) (ts : Option PyDateTime)
    (mt : Option String) (hr mets steps cala cal carbs prot fat fib amt : Option ℚ) :
    (5 ≤ gv.length →
      dget (build_features gv ts mt hr mets steps cala cal carbs prot fat fib amt).features
        "gl_slope_5" = some (FVal.num ((specOlsSlope (tailK gv 5) : ℚ) : ℝ)))
  ∧ (gv.length < 5 →
      dget (build_features gv ts mt hr mets steps cala cal carbs prot fat fib amt).features
        "gl_slope_5" = some (FVal.num 0))
  ∧ (15 ≤ gv.length →
      dget (build_features gv ts mt hr mets steps cala cal carbs prot fat fib amt).features
        "gl_slope_15" = some (FVal.num ((specOlsSlope (tailK gv 15) : ℚ) : ℝ)))
  ∧ (gv.length < 15 →
      dget (build_features gv ts mt hr mets steps cala cal carbs prot fat fib amt).features
        "gl_slope_15" = some (FVal.num 0)) := by
  by_cases hgv : gv = []
  · subst hgv
    refine ⟨fun h => absurd h (by simp), fun _ => ?_, fun h => absurd h (by simp),
      fun _ => ?_⟩ <;>
      rw [build_features_features_empty, dget_dset_ne _ _ _ _ (by decide),
        dget_defaultRow _ (by decide)]
  · have hn : gv.length ≠ 0 := fun h => hgv (List.length_eq_zero.mp h)
    refine ⟨fun h5 => ?_, fun h5 => ?_, fun h15 => ?_, fun h15 => ?_⟩
    · rw [build_features_features gv ts mt hr mets steps cala cal carbs prot fat fib amt hn,
        dget_dsetFold]
      simp [featureWrites]
      rw [if_pos (by omega : 2 ≤ gv.length),
        slope_code_eq_spec gv 5 (by omega) h5 (by rw [vx5]; norm_num)]
    · rw [build_features_features gv ts mt hr mets steps cala cal carbs prot fat fib amt hn,
        dget_dsetFold]
      simp [featureWrites]
      intro _
      simp only [slope_last_k]
      rw [if_pos h5]
    · rw [build_features_features gv ts mt hr mets steps cala cal carbs prot fat fib amt hn,
        dget_dsetFold]
      simp [featureWrites]
      rw [if_pos (by omega : 2 ≤ gv.length),
        slope_code_eq_spec gv 15 (by omega) h15 (by rw [vx15]; norm_num)]
    · rw [build_features_features gv ts mt hr mets steps cala cal carbs prot fat fib amt hn,
        dget_dsetFold]
      simp [featureWrites]
      intro _
      simp only [slope_last_k]
      rw [if_pos h15]

/-- C4 witness: the five-sample series of the spec's test vector. -/
theorem build_features_slope_semantics_witness :
    dget (build_features [100, 102, 104, 106, 108] none none none none none none none none
        none none none none).features "gl_slope_5"
      = some (FVal.num ((specOlsSlope (tailK [100, 102, 104, 106, 108] 5) : ℚ) : ℝ)) :=
  (build_features_slope_semantics [100, 102, 104, 106, 108] none none none none none none
    none none none none none none).1 (by simp)

end Dialog

namespace Dialog

/-! ### C5: the model registry -/

/-- `model_service.load_model`, as an explicit state transition.  The
process-wide global `_MODEL` is the `cache` argument: the path the cached
artifact was loaded from, `none` before any load.  The filesystem is the
predicate `pathExists`, and a model handle is identified by the path
`joblib.load` was given.  Returns the handle with the new cache state, or
the `FileNotFoundError` message; the existence check runs only when the
cache slot is empty. -/
def load_model (pathExists : String → Bool) (cache : Option String) (model_path : String) :
    Except String (String × Option String) :=
  match cache with
  | some m => .ok (m, some m)
  | none =>
      if pathExists model_path then .ok (model_path, some model_path)
      else .error ("Model not found at: " ++ model_path)

/-- Default path of the meal-response model in
`meal_response_service.load_meal_model`. -/
def MEAL_MODEL_DEFAULT_PATH : String := "models/meal_response_rf.joblib"

/-- `meal_response_service.load_meal_model`: the same single-slot
pattern, with a default path and no existence check at all. -/
def load_meal_model (cache : Option String) (model_path : Option String) :
    String × Option String :=
  match cache with
  | some m => (m, some m)
  | none =>
      let p := model_path.getD MEAL_MODEL_DEFAULT_PATH
      (p, some p)

/-- C5 counterexample: with every path present, loading the 30-minute
model and then resolving the 60-minute path returns the handle loaded
from the 30-minute path — resolution is a single process-wide slot, not
per-path. -/
theorem load_model_cross_path_cex :
    load_model (fun _ => true) none "models/ridge_pipe_global_delta_h30_scaled.joblib"
      = Except.ok ("models/ridge_pipe_global_delta_h30_scaled.joblib",
          some "models/ridge_pipe_global_delta_h30_scaled.joblib")
  ∧ load_model (fun _ => true) (some "models/ridge_pipe_global_delta_h30_scaled.joblib")
      "models/ridge_pipe_global_delta_h60_scaled.joblib"
      = Except.ok ("models/ridge_pipe_global_delta_h30_scaled.joblib",
          some "models/ridge_pipe_global_delta_h30_scaled.joblib")
  ∧ "models/ridge_pipe_global_delta_h30_scaled.joblib"
      ≠ "models/ridge_pipe_global_delta_h60_scaled.joblib" :=
  ⟨rfl, rfl, by decide⟩

/-- C5 amended: the registry caches one model for the whole process.
The first successful load fills the slot; every later resolution returns
that cached handle regardless of the requested path; the filesystem is
consulted only while the slot is empty (`load_meal_model` never checks
it), so a cached handle is never re-checked or invalidated. -/
theorem load_model_single_slot (pathExists : String → Bool) (cache : Option String)
    (p path : String) :
    (cache = some p → load_model pathExists cache path = Except.ok (p, some p))
  ∧ (cache = none → pathExists path = true →
      load_model pathExists cache path = Except.ok (path, some path))
  ∧ (cache = none → pathExists path = false →
      load_model pathExists cache path = Except.error ("Model not found at: " ++ path))
  ∧ load_meal_model (some p) (some path) = (p, some p) := by
  refine ⟨fun h => ?_, fun h hfs => ?_, fun h hfs => ?_, rfl⟩
  · subst h
    rfl
  · subst h
    simp [load_model, hfs]
  · subst h
    simp [load_model, hfs]

/-- C5 witness: an empty cache with a missing path errors; a filled
cache is returned as-is by the meal loader. -/
theorem load_model_single_slot_witness :
    load_model (fun _ => false) none "b" = Except.error ("Model not found at: " ++ "b")
  ∧ load_meal_model (some "a") (some "b") = ("a", some "a") :=
  ⟨(load_model_single_slot (fun _ => false) none "a" "b").2.2.1 rfl rfl,
   (load_model_single_slot (fun _ => false) none "a" "b").2.2.2⟩

/-! ### C6: the `/predict` handler -/

/-- The keyword parameters accepted by `feature_builder.build_features`. -/
def build_features_params : List String :=
  ["glucose_values", "latest_ts", "meal_type", "hr", "mets", "steps", "calories_activity",
   "calories", "carbs", "protein", "fat", "fiber", "amount_consumed"]

/-- The keyword arguments `main.predict` passes in its `build_features`
call (main.py lines 186–201). -/
def predict_build_features_kwargs : List String :=
  ["glucose_values", "latest_ts", "timestamps", "meal_type", "hr", "mets", "steps",
   "calories_activity", "calories", "carbs", "protein", "fat", "fiber", "amount_consumed"]

/-- The fields of the `FeatureBuildResult` dataclass. -/
def featureBuildResult_fields : List String := ["mode", "features", "features_used_cols"]

/-- The attributes of the build result that `main.predict` reads without
a `getattr` default while assembling its response. -/
def predict_fb_attr_reads : List String := ["mode", "mode_reason", "features"]

/-- Python `sub in s` for strings: `s` splits into more than one piece. -/
def pyInStr (sub s : String) : Bool := 1 < (s.splitOn sub).length

/-- `main.confidence_label`: "low" when the mode mentions fallback or
fewer than 10 samples, "medium" below 20 samples, else "high". -/
def confidence_label (mode : Option String) (n : ℕ) : String :=
  let m := (mode.getD "").toLower
  if pyInStr "fallback" m = true ∨ n < 10 then "low"
  else if n < 20 then "medium"
  else "high"

/-- C6: the handler's `build_features` call passes a `timestamps` keyword
the builder does not accept, and the handler reads a `mode_reason`
attribute the result dataclass does not define — every request that
passes the input gate raises (`TypeError`) before the documented response
can be assembled. -/
theorem predict_call_mismatch :
    "timestamps" ∈ predict_build_features_kwargs
  ∧ "timestamps" ∉ build_features_params
  ∧ "mode_reason" ∈ predict_fb_attr_reads
  ∧ "mode_reason" ∉ featureBuildResult_fields := by decide

/-! ### C8: the `/predict` input gate -/

/-- A Python float as carried in the request body: `NaN` or a finite
value. -/
inductive PyFloat where
  | nan
  | num (q : ℚ)
deriving DecidableEq

/-- A glucose point of the `/predict` request body; the handler checks
`p.value is not None` at runtime, so the value slot is optional here. -/
structure GlucosePoint where
  ts : Option String
  value : Option PyFloat
deriving DecidableEq

/-- Outcome of the `/predict` input gate (main.py lines 166–171). -/
inductive GateResult where
  | emptyList
  | noNumeric
  | proceed (points : List GlucosePoint)
deriving DecidableEq

/-- The input gate of `main.predict`: reject an empty list with the 400
"glucose list is empty", drop points whose value is `None`, reject with
the 400 "glucose points have no numeric values" if nothing remains, else
continue with the kept points. -/
def predict_input_gate (glucose : List GlucosePoint) : GateResult :=
  if glucose.isEmpty then .emptyList
  else
    let points := glucose.filter (fun p => p.value.isSome)
    if points.isEmpty then .noNumeric
    else .proceed points

/-- C8 counterexample: a request whose single glucose value is `NaN`
passes the input gate and proceeds towards feature construction — it is
not rejected with the empty-series client error. -/
theorem predict_gate_all_nan_proceeds_cex :
    predict_input_gate [⟨none, some PyFloat.nan⟩]
      = GateResult.proceed [⟨none, some PyFloat.nan⟩] := rfl

/-- C8 amended: the gate rejects only an empty list or a list whose
values are all `None`; a non-empty all-`NaN` request passes the gate
unchanged and proceeds to feature construction and prediction. -/
theorem predict_gate_filtering (glucose : List GlucosePoint) (hne : glucose ≠ []) :
    ((∀ p ∈ glucose, p.value = some PyFloat.nan) →
      predict_input_gate glucose = GateResult.proceed glucose)
  ∧ ((∀ p ∈ glucose, p.value = none) →
      predict_input_gate glucose = GateResult.noNumeric)
  ∧ predict_input_gate [] = GateResult.emptyList := by
  have hni : glucose.isEmpty = false := by
    cases glucose with
    | nil => exact absurd rfl hne
    | cons a l => rfl
  refine ⟨fun hall => ?_, fun hall => ?_, rfl⟩
  · have hfil : glucose.filter (fun p => p.value.isSome) = glucose :=
      List.filter_eq_self.mpr (fun p hp => by rw [hall p hp]; rfl)
    simp only [predict_input_gate, hni, hfil]
    simp [hni, fun h => hne (List.isEmpty_iff.mp h)]
  · have hfil : glucose.filter (fun p => p.value.isSome) = [] :=
      List.filter_eq_nil_iff.mpr (fun p hp => by simp [hall p hp])
    simp only [predict_input_gate, hni, hfil]
    simp

/-- C8 witness: a two-point all-`NaN` request proceeds unchanged. -/
theorem predict_gate_filtering_witness :
    predict_input_gate [⟨none, some PyFloat.nan⟩, ⟨some "t", some PyFloat.nan⟩]
      = GateResult.proceed [⟨none, some PyFloat.nan⟩, ⟨some "t", some PyFloat.nan⟩] :=
  (predict_gate_filtering [⟨none, some PyFloat.nan⟩, ⟨some "t", some PyFloat.nan⟩]
    (by decide)).1 (by decide)

/-! ### C9: the time-of-day encoding -/

/-- C9: the time-of-day encoding lies on the unit circle for every
parsed timestamp, and is exactly `(0, 0)` when the timestamp is missing
or unparsable. -/
theorem tod_sin_cos_unit_circle :
    (∀ dt : PyDateTime,
      (tod_sin_cos (some dt)).1 ^ 2 + (tod_sin_cos (some dt)).2 ^ 2 = 1)
  ∧ tod_sin_cos none = (0, 0) :=
  ⟨fun _ => Real.sin_sq_add_cos_sq _, rfl⟩

/-! ### C10: the meal-response peak -/

/-- The response dictionary assembled by
`meal_response_service.predict_meal_response` (source lines 140–154):
`base` and `slope` come from `_baseline_and_slope`, the four regression
outputs from the model pipeline, and `n` is the glucose history
length. -/
structure MealResponseOut where
  mode : String
  baseline_glucose : ℝ
  premeal_slope : ℝ
  d_peak : ℝ
  t_peak : ℝ
  auc_0_120 : ℝ
  decay_slope : ℝ
  predicted_peak_glucose : ℝ
  confidence : String

/-- The pure response assembly of `predict_meal_response`. -/
noncomputable def predict_meal_response_result (base slope d_peak t_peak auc decay : ℝ)
    (n : ℕ) : MealResponseOut :=
  ⟨"meal_response", base, slope, d_peak, t_peak, auc, decay,
   base + max d_peak 0,
   if 12 ≤ n then "high" else if 6 ≤ n then "medium" else "low"⟩

/-- C10: the predicted peak glucose equals `baseline + max(d_peak, 0)`
and is never below the baseline, even for a negative predicted peak
delta. -/
theorem predicted_peak_glucose_floor (base slope d_peak t_peak auc decay : ℝ) (n : ℕ) :
    (predict_meal_response_result base slope d_peak t_peak auc decay
        n).predicted_peak_glucose = base + max d_peak 0
  ∧ base ≤ (predict_meal_response_result base slope d_peak t_peak auc decay
      n).predicted_peak_glucose :=
  ⟨rfl, le_add_of_nonneg_right (le_max_right _ _)⟩

end Dialog

namespace Dialog

/-! ### C7: the meal-response curve synthesizer -/

/-- Numeric clamp to a closed interval. -/
noncomputable def clampR (x lo hi : ℝ) : ℝ := max lo (min x hi)

/-- Modelled from the spec: the meal-response curve synthesizer is
missing from the sources under `src/` (the meal service returns only the
four regression parameters), so the three-phase piecewise delta of
spec §4.5 is defined from the spec's words: rising phase
`delta_peak · (t/t_peak)^1.6` for `0 ≤ t ≤ t_peak` with `t_peak` clamped
to `[20, 200]`, plateau `delta_peak` until `tail = t_peak + 15`, then
exponential decay with rate `clamp(|decay_slope|, 0.05, 1.5)`. -/
noncomputable def mealCurveDelta (delta_peak t_peak_raw decay_slope t : ℝ) : ℝ :=
  let tp := clampR t_peak_raw 20 200
  let tl := tp + 15
  let k := clampR |decay_slope| 0.05 1.5
  if t ≤ tp then delta_peak * (t / tp) ^ (1.6 : ℝ)
  else if t ≤ tl then delta_peak
  else delta_peak * Real.exp (-k * (t - tl) / 60)

/-- A point of the synthesized curve. -/
structure CurvePoint where
  t_minutes : ℕ
  delta : ℝ
  absolute_glucose : ℝ

/-- Modelled from the spec: the discretized curve over the fixed
120-minute horizon in 5-minute steps, each point reporting
`absolute_glucose = baseline + delta(t)`. -/
noncomputable def synthesize_curve (delta_peak t_peak decay_slope baseline : ℝ) :
    List CurvePoint :=
  (List.range 25).map (fun i =>
    let d := mealCurveDelta delta_peak t_peak decay_slope ((5 * i : ℕ) : ℝ)
    ⟨5 * i, d, baseline + d⟩)

lemma clampR_pos (x : ℝ) : 0 < clampR x 20 200 :=
  lt_of_lt_of_le (by norm_num) (le_max_left _ _)

lemma clampK_pos (x : ℝ) : 0 < clampR |x| 0.05 1.5 :=
  lt_of_lt_of_le (by norm_num) (le_max_left _ _)

/-- C7: the synthesized curve is the three-phase piecewise function over
the clamped time-to-peak: zero at `t = 0`, the power-law rise up to the
peak, `delta_peak` on the 15-minute plateau, then the clamped exponential
decay — strictly decreasing in magnitude, never changing sign — and each
point reports `absolute_glucose = baseline + delta(t)`. -/
theorem meal_curve_three_phase (dp tp ds base : ℝ) :
    mealCurveDelta dp tp ds 0 = 0
  ∧ (∀ t : ℝ, 0 ≤ t → t ≤ clampR tp 20 200 →
      mealCurveDelta dp tp ds t = dp * (t / clampR tp 20 200) ^ (1.6 : ℝ))
  ∧ (∀ t : ℝ, clampR tp 20 200 < t → t ≤ clampR tp 20 200 + 15 →
      mealCurveDelta dp tp ds t = dp)
  ∧ (∀ t : ℝ, clampR tp 20 200 + 15 < t →
      mealCurveDelta dp tp ds t
        = dp * Real.exp (-(clampR |ds| 0.05 1.5) * (t - (clampR tp 20 200 + 15)) / 60))
  ∧ (dp ≠ 0 → ∀ t1 t2 : ℝ, clampR tp 20 200 + 15 < t1 → t1 < t2 →
      |mealCurveDelta dp tp ds t2| < |mealCurveDelta dp tp ds t1|)
  ∧ (∀ t : ℝ, 0 ≤ t → 0 ≤ dp → 0 ≤ mealCurveDelta dp tp ds t)
  ∧ (∀ t : ℝ, 0 ≤ t → dp ≤ 0 → mealCurveDelta dp tp ds t ≤ 0)
  ∧ (∀ p ∈ synthesize_curve dp tp ds base,
      p.delta = mealCurveDelta dp tp ds (p.t_minutes : ℝ)
      ∧ p.absolute_glucose = base + mealCurveDelta dp tp ds (p.t_minutes : ℝ)) := by
  have htp := clampR_pos tp
  have hk := clampK_pos ds
  have hdecay : ∀ t : ℝ, clampR tp 20 200 + 15 < t →
      mealCurveDelta dp tp ds t
        = dp * Real.exp (-(clampR |ds| 0.05 1.5) * (t - (clampR tp 20 200 + 15)) / 60) := by
    intro t h1
    simp only [mealCurveDelta]
    rw [if_neg (by push_neg; linarith), if_neg (by push_neg; linarith)]
  refine ⟨?_, ?_, ?_, hdecay, ?_, ?_, ?_, ?_⟩
  · simp only [mealCurveDelta]
    rw [if_pos htp.le, zero_div, Real.zero_rpow (by norm_num), mul_zero]
  · intro t _ h2
    simp only [mealCurveDelta]
    rw [if_pos h2]
  · intro t h1 h2
    simp only [mealCurveDelta]
    rw [if_neg (not_le.mpr h1), if_pos h2]
  · intro hdp t1 t2 h1 h12
    rw [hdecay t1 h1, hdecay t2 (by linarith)]
    rw [abs_mul, abs_mul, abs_of_pos (Real.exp_pos _), abs_of_pos (Real.exp_pos _)]
    refine mul_lt_mul_of_pos_left ?_ (abs_pos.mpr hdp)
    refine Real.exp_lt_exp.mpr ?_
    have hprod : 0 < clampR |ds| 0.05 1.5 * (t2 - t1) := mul_pos hk (by linarith)
    nlinarith
  · intro t ht hdp
    simp only [mealCurveDelta]
    split_ifs with h1 h2
    · exact mul_nonneg hdp (Real.rpow_nonneg (div_nonneg ht htp.le) _)
    · exact hdp
    · exact mul_nonneg hdp (Real.exp_pos _).le
  · intro t ht hdp
    simp only [mealCurveDelta]
    split_ifs with h1 h2
    · exact mul_nonpos_iff.mpr (Or.inr
        ⟨hdp, Real.rpow_nonneg (div_nonneg ht htp.le) _⟩)
    · exact hdp
    · exact mul_nonpos_iff.mpr (Or.inr ⟨hdp, (Real.exp_pos _).le⟩)
  · intro p hp
    simp only [synthesize_curve, List.mem_map] at hp
    obtain ⟨i, _, rfl⟩ := hp
    exact ⟨rfl, rfl⟩

/-- C7 witness: the spec's test vector `delta_peak = 40`, `t_peak = 60`,
`decay_slope = 0.3`: zero at the start, `40` on the plateau at `t = 70`,
and strictly shrinking past the tail. -/
theorem meal_curve_three_phase_witness :
    mealCurveDelta 40 60 0.3 0 = 0
  ∧ mealCurveDelta 40 60 0.3 70 = 40
  ∧ |mealCurveDelta 40 60 0.3 90| < |mealCurveDelta 40 60 0.3 80| :=
  have h := meal_curve_three_phase 40 60 0.3 110
  have hc : clampR (60 : ℝ) 20 200 = 60 := by
    norm_num [clampR, min_def, max_def]
  ⟨h.1,
   h.2.2.1 70 (by rw [hc]; norm_num) (by rw [hc]; norm_num),
   h.2.2.2.2.1 (by norm_num) 80 90 (by rw [hc]; norm_num) (by norm_num)⟩

end Dialog
